import Mathlib

/-!
Verification of the vboot workbuffer / context manager
(firmware/2lib/2context.c) and the hardware-crypto stub defaults.

The buffer is modelled as a record: its start address (used only for the
alignment check), the interpreted contents of the embedded
vb2_shared_data header region, and the raw bytes that follow the header
region (the tail).  C functions that mutate memory through pointers are
embedded as pure functions returning the new buffer state together with
the status code and the value written through the ctxptr out-parameter.
-/

/-- Error codes used by this slice, one constructor per named C constant
from 2return_codes.h (the numeric values are immaterial here; the codes
are pairwise distinct in the C header as they are in this inductive). -/
inductive vb2_error_t where
  | VB2_SUCCESS
  | VB2_ERROR_WORKBUF_ALIGN
  | VB2_ERROR_WORKBUF_SMALL
  | VB2_ERROR_SHARED_DATA_MAGIC
  | VB2_ERROR_SHARED_DATA_VERSION
  | VB2_ERROR_WORKBUF_INVALID
  | VB2_ERROR_EX_HWCRYPTO_UNSUPPORTED
  | VB2_ERROR_SHA_EXTEND_ALGORITHM
  | VB2_ERROR_SHA_FINALIZE_ALGORITHM
  deriving Repr, DecidableEq

/-- Modelled from the spec: the platform alignment constant
VB2_WORKBUF_ALIGN (2constants.h is not part of this slice).  A power of
two; the standard value is 16. -/
def VB2_WORKBUF_ALIGN : Nat := 16

/-- Modelled from the spec: the magic constant VB2_SHARED_DATA_MAGIC
stamped into the header (2struct.h is not part of this slice). -/
def VB2_SHARED_DATA_MAGIC : Nat := 0x44533256

/-- Modelled from the spec: the expected major struct version
VB2_SHARED_DATA_VERSION_MAJOR (2struct.h is not part of this slice). -/
def VB2_SHARED_DATA_VERSION_MAJOR : Nat := 3

/-- Modelled from the spec: the expected minor struct version
VB2_SHARED_DATA_VERSION_MINOR.  The relocation code compares it against
the literal 1 for the 0 to 1 migration, so the current value is 1. -/
def VB2_SHARED_DATA_VERSION_MINOR : Nat := 1

/-- Modelled from the spec: the recovery-mode bit of the context flags
bitset (2api.h is not part of this slice; only distinctness of the two
bits matters). -/
def VB2_CONTEXT_RECOVERY_MODE : Nat := 8

/-- Modelled from the spec: the developer-mode bit of the context flags
bitset. -/
def VB2_CONTEXT_DEVELOPER_MODE : Nat := 4

/-- Modelled from the spec: the byte size of struct vb2_shared_data for
the layout given in the spec (magic 4, major 2, minor 2, size 4, used 4,
then the embedded context: flags 4, boot_mode 4).  Only the facts that
it is positive and at most its own round-up are load-bearing. -/
def SIZEOF_VB2_SHARED_DATA : Nat := 24

/-- Modelled from the spec: byte offset of the embedded vb2_context
inside vb2_shared_data (the header fields magic, major, minor, size,
used precede it). -/
def VB2_CONTEXT_OFFSET : Nat := 16

/-- vb2_wb_round_up from 2misc.h: round a uint32 size up to a multiple
of VB2_WORKBUF_ALIGN, with uint32 wrap-around semantics on the
intermediate addition. -/
def vb2_wb_round_up (size : Nat) : Nat :=
  ((size + (VB2_WORKBUF_ALIGN - 1)) % 2 ^ 32) / VB2_WORKBUF_ALIGN * VB2_WORKBUF_ALIGN

/-- vb2_aligned from 2common.h: the pointer value is a multiple of the
(power of two) alignment. -/
def vb2_aligned (ptr align : Nat) : Bool :=
  ptr % align == 0

/-- C uint32 subtraction a - b (with wrap-around), for a and b below
2 to the 32. -/
def usub32 (a b : Nat) : Nat :=
  (2 ^ 32 + a - b) % 2 ^ 32

/-- The embedded struct vb2_context as far as this slice touches it:
the flags bitset and the boot_mode field added at minor version 1. -/
structure vb2_context where
  flags : Nat
  boot_mode : Nat
  deriving Repr, DecidableEq

/-- struct vb2_shared_data, the versioned header at the start of the
workbuffer: magic, struct version pair, total size, bytes used, and the
embedded context. -/
structure vb2_shared_data where
  magic : Nat
  struct_version_major : Nat
  struct_version_minor : Nat
  workbuf_size : Nat
  workbuf_used : Nat
  ctx : vb2_context
  deriving Repr, DecidableEq

/-- A workbuffer: its start address (for the alignment check and for
address comparison in relocation), the interpreted header region, and
the raw bytes after the header region.  Byte k of the tail sits at
buffer offset SIZEOF_VB2_SHARED_DATA + k. -/
structure Workbuf where
  addr : Nat
  sd : vb2_shared_data
  tail : List Nat
  deriving Repr, DecidableEq

/-- Result of an API call: the returned status, the state of the
written-to buffer after the call, and the value stored through the
ctxptr out-parameter (none when the pointer was set to NULL by
vb2api_init, or left unwritten by vb2api_relocate on failure; some a
when it points to the context embedded at address a). -/
structure ApiResult where
  status : vb2_error_t
  buf : Workbuf
  ctxptr : Option Nat
  deriving Repr, DecidableEq

/-- struct vb2_workbuf: a (buffer address, size) pair describing a
scratch region. -/
structure vb2_workbuf where
  buf : Nat
  size : Nat
  deriving Repr, DecidableEq

/-- vb2_workbuf_from_ctx: the scratch view over the unused tail, from
offset workbuf_used, of size workbuf_size - workbuf_used (uint32
subtraction). -/
def vb2_workbuf_from_ctx (wb : Workbuf) : vb2_workbuf :=
  { buf := wb.addr + wb.sd.workbuf_used
  , size := usub32 wb.sd.workbuf_size wb.sd.workbuf_used }

/-- vb2_set_workbuf_used: store the rounded-up value into
workbuf_used. -/
def vb2_set_workbuf_used (wb : Workbuf) (used : Nat) : Workbuf :=
  { wb with sd := { wb.sd with workbuf_used := vb2_wb_round_up used } }

/-- vb2api_init: null the out-pointer, check alignment, check the size
against the rounded-up header size, then zero the shared-data region
(header fields and embedded context), stamp magic, version, size and
used, and return a pointer to the embedded context.  The bytes after
the shared-data region are not touched. -/
def vb2api_init (workbuf : Workbuf) (size : Nat) : ApiResult :=
  if !(vb2_aligned workbuf.addr VB2_WORKBUF_ALIGN) then
    { status := .VB2_ERROR_WORKBUF_ALIGN, buf := workbuf, ctxptr := none }
  else if size < vb2_wb_round_up SIZEOF_VB2_SHARED_DATA then
    { status := .VB2_ERROR_WORKBUF_SMALL, buf := workbuf, ctxptr := none }
  else
    { status := .VB2_SUCCESS
    , buf := { workbuf with sd :=
        { magic := VB2_SHARED_DATA_MAGIC
        , struct_version_major := VB2_SHARED_DATA_VERSION_MAJOR
        , struct_version_minor := VB2_SHARED_DATA_VERSION_MINOR
        , workbuf_size := size
        , workbuf_used := vb2_wb_round_up SIZEOF_VB2_SHARED_DATA
        , ctx := { flags := 0, boot_mode := 0 } } }
    , ctxptr := some (workbuf.addr + VB2_CONTEXT_OFFSET) }

/-- The boot-mode enumeration (normal, developer, manual recovery). -/
inductive vb2_boot_mode where
  | VB2_BOOT_MODE_NORMAL
  | VB2_BOOT_MODE_DEVELOPER
  | VB2_BOOT_MODE_MANUAL_RECOVERY
  deriving Repr, DecidableEq

/-- Modelled from the spec: the numeric encoding of the boot-mode
enumeration stored in the boot_mode field (2api.h is not part of this
slice; only distinctness matters). -/
def vb2_boot_mode.toNat : vb2_boot_mode → Nat
  | .VB2_BOOT_MODE_NORMAL => 0
  | .VB2_BOOT_MODE_DEVELOPER => 1
  | .VB2_BOOT_MODE_MANUAL_RECOVERY => 2

/-- get_boot_mode: recovery flag wins, then developer flag, else
normal. -/
def get_boot_mode (ctx : vb2_context) : vb2_boot_mode :=
  if ctx.flags &&& VB2_CONTEXT_RECOVERY_MODE ≠ 0 then
    .VB2_BOOT_MODE_MANUAL_RECOVERY
  else if ctx.flags &&& VB2_CONTEXT_DEVELOPER_MODE ≠ 0 then
    .VB2_BOOT_MODE_DEVELOPER
  else
    .VB2_BOOT_MODE_NORMAL

/-- The part of vb2api_relocate after the magic and version checks:
workbuf integrity checks, the memmove when source and destination
addresses differ (exactly workbuf_used bytes: the whole header region
plus workbuf_used - SIZEOF_VB2_SHARED_DATA tail bytes; destination
bytes beyond that keep their previous values), the size update, the
ctxptr assignment, and the 0 to 1 migration writes when
update_bootmode is set. -/
def vb2api_relocate_cont (new_workbuf cur_workbuf : Workbuf) (size : Nat)
    (update_bootmode : Bool) : ApiResult :=
  let cur_sd := cur_workbuf.sd
  if cur_sd.workbuf_used < vb2_wb_round_up SIZEOF_VB2_SHARED_DATA then
    { status := .VB2_ERROR_WORKBUF_INVALID, buf := new_workbuf, ctxptr := none }
  else if cur_sd.workbuf_size < cur_sd.workbuf_used then
    { status := .VB2_ERROR_WORKBUF_INVALID, buf := new_workbuf, ctxptr := none }
  else if size < cur_sd.workbuf_used then
    { status := .VB2_ERROR_WORKBUF_SMALL, buf := new_workbuf, ctxptr := none }
  else
    let moved : Workbuf :=
      if cur_workbuf.addr ≠ new_workbuf.addr then
        { new_workbuf with
            sd := cur_sd
          , tail :=
              cur_workbuf.tail.take (cur_sd.workbuf_used - SIZEOF_VB2_SHARED_DATA)
                ++ new_workbuf.tail.drop (cur_sd.workbuf_used - SIZEOF_VB2_SHARED_DATA) }
      else new_workbuf
    let sized : Workbuf := { moved with sd := { moved.sd with workbuf_size := size } }
    if update_bootmode then
      { status := .VB2_SUCCESS
      , buf := { sized with sd := { sized.sd with
            struct_version_minor := 1
          , ctx := { sized.sd.ctx with
                boot_mode := (get_boot_mode sized.sd.ctx).toNat } } }
      , ctxptr := some (new_workbuf.addr + VB2_CONTEXT_OFFSET) }
    else
      { status := .VB2_SUCCESS, buf := sized
      , ctxptr := some (new_workbuf.addr + VB2_CONTEXT_OFFSET) }

/-- vb2api_relocate: check alignment of the destination, the magic, and
version compatibility (major equal and minor at least the expected
minor, with the pair current minor 0 and expected minor 1 accepted as
the migration case, recorded in update_bootmode), then hand over to the
continuation. -/
def vb2api_relocate (new_workbuf cur_workbuf : Workbuf) (size : Nat) : ApiResult :=
  let cur_sd := cur_workbuf.sd
  if !(vb2_aligned new_workbuf.addr VB2_WORKBUF_ALIGN) then
    { status := .VB2_ERROR_WORKBUF_ALIGN, buf := new_workbuf, ctxptr := none }
  else if cur_sd.magic ≠ VB2_SHARED_DATA_MAGIC then
    { status := .VB2_ERROR_SHARED_DATA_MAGIC, buf := new_workbuf, ctxptr := none }
  else if cur_sd.struct_version_major ≠ VB2_SHARED_DATA_VERSION_MAJOR ∨
      cur_sd.struct_version_minor < VB2_SHARED_DATA_VERSION_MINOR then
    if cur_sd.struct_version_major = VB2_SHARED_DATA_VERSION_MAJOR ∧
        cur_sd.struct_version_minor = 0 ∧ VB2_SHARED_DATA_VERSION_MINOR = 1 then
      vb2api_relocate_cont new_workbuf cur_workbuf size true
    else
      { status := .VB2_ERROR_SHARED_DATA_VERSION, buf := new_workbuf, ctxptr := none }
  else
    vb2api_relocate_cont new_workbuf cur_workbuf size false

/-- vb2api_reinit: blindly read the recorded workbuf_size and delegate
to vb2api_relocate in place. -/
def vb2api_reinit (workbuf : Workbuf) : ApiResult :=
  vb2api_relocate workbuf workbuf workbuf.sd.workbuf_size

/-- struct vb2_public_key from 2rsa.h (pointer fields become lists or
plain values; only shapes matter to the stub defaults). -/
structure vb2_public_key where
  arrsize : Nat
  n0inv : Nat
  n : List Nat
  rr : List Nat
  sig_alg : Nat
  hash_alg : Nat
  desc : List Nat
  version : Nat
  id : Nat
  allow_hwcrypto : Bool
  deriving Repr, DecidableEq

/-- Default (software-only) vb2ex_hwcrypto_digest_init stub: always
unsupported. -/
def vb2ex_hwcrypto_digest_init (hash_alg data_size : Nat) : vb2_error_t :=
  .VB2_ERROR_EX_HWCRYPTO_UNSUPPORTED

/-- Default vb2ex_hwcrypto_digest_extend stub: should not be called, so
it returns a hard error rather than unsupported. -/
def vb2ex_hwcrypto_digest_extend (buf : List Nat) (size : Nat) : vb2_error_t :=
  .VB2_ERROR_SHA_EXTEND_ALGORITHM

/-- Default vb2ex_hwcrypto_digest_finalize stub: should not be called,
so it returns a hard error rather than unsupported. -/
def vb2ex_hwcrypto_digest_finalize (digest : List Nat) (digest_size : Nat) : vb2_error_t :=
  .VB2_ERROR_SHA_FINALIZE_ALGORITHM

/-- Default vb2ex_hwcrypto_rsa_verify_digest stub: always
unsupported. -/
def vb2ex_hwcrypto_rsa_verify_digest (key : vb2_public_key)
    (sig digest : List Nat) : vb2_error_t :=
  .VB2_ERROR_EX_HWCRYPTO_UNSUPPORTED

/-- Default vb2ex_hwcrypto_modexp stub: always unsupported. -/
def vb2ex_hwcrypto_modexp (key : vb2_public_key) (inout : List Nat)
    (workbuf : List Nat) (workbuf_size : Nat) (exp : Int) : vb2_error_t :=
  .VB2_ERROR_EX_HWCRYPTO_UNSUPPORTED

/-- Version-pair acceptance condition of vb2api_relocate, as the spec
states it: major equal, and minor at least the expected minor or the
0 to 1 migration pair. -/
def versionAccepted (sd : vb2_shared_data) : Prop :=
  sd.struct_version_major = VB2_SHARED_DATA_VERSION_MAJOR ∧
    (VB2_SHARED_DATA_VERSION_MINOR ≤ sd.struct_version_minor ∨
      (sd.struct_version_minor = 0 ∧ VB2_SHARED_DATA_VERSION_MINOR = 1))

instance : DecidablePred versionAccepted := fun sd => by
  unfold versionAccepted; infer_instance

/-- An all-zero shared-data header, standing for arbitrary stale bytes
in a buffer that has not been initialized yet. -/
def sdZero : vb2_shared_data :=
  { magic := 0, struct_version_major := 0, struct_version_minor := 0
  , workbuf_size := 0, workbuf_used := 0, ctx := { flags := 0, boot_mode := 0 } }

/-- An aligned buffer with stale zero contents and an empty tail. -/
def wbZero : Workbuf := { addr := 0, sd := sdZero, tail := [] }

/-- An aligned buffer holding one nonzero stale byte just past the
shared-data region (at buffer offset SIZEOF_VB2_SHARED_DATA). -/
def wbDirty : Workbuf := { addr := 0, sd := sdZero, tail := [7] }

/-- A misaligned buffer (start address 1). -/
def wbMis : Workbuf := { addr := 1, sd := sdZero, tail := [] }

/-- A context with both the recovery and the developer flag set. -/
def ctxBoth : vb2_context := { flags := 12, boot_mode := 0 }

/-- A valid buffer whose header records 64 bytes used. -/
def wbUsed64 : Workbuf :=
  { addr := 0
  , sd := { magic := VB2_SHARED_DATA_MAGIC, struct_version_major := 3
          , struct_version_minor := 1, workbuf_size := 128, workbuf_used := 64
          , ctx := { flags := 0, boot_mode := 0 } }
  , tail := [] }

/-- A valid minor-version-0 buffer with the recovery flag set, 48 bytes
used out of 64, and recognizable tail bytes. -/
def cwMig : Workbuf :=
  { addr := 0
  , sd := { magic := VB2_SHARED_DATA_MAGIC, struct_version_major := 3
          , struct_version_minor := 0, workbuf_size := 64, workbuf_used := 48
          , ctx := { flags := 8, boot_mode := 0 } }
  , tail := List.replicate 40 9 }

/-- An aligned destination buffer at a different address with
recognizable stale tail bytes. -/
def nwDest : Workbuf := { addr := 16, sd := sdZero, tail := List.replicate 40 5 }

/-- A buffer whose magic has been corrupted. -/
def cwBadMagic : Workbuf :=
  { addr := 0
  , sd := { magic := 0x44533257, struct_version_major := 3
          , struct_version_minor := 1, workbuf_size := 64, workbuf_used := 48
          , ctx := { flags := 0, boot_mode := 0 } }
  , tail := [] }

/-- A buffer whose header records a major version one greater than
expected. -/
def cwMaj4 : Workbuf :=
  { addr := 0
  , sd := { magic := VB2_SHARED_DATA_MAGIC, struct_version_major := 4
          , struct_version_minor := 7, workbuf_size := 64, workbuf_used := 48
          , ctx := { flags := 0, boot_mode := 0 } }
  , tail := [] }

/-- The rounded-up header size for the modelled layout. -/
theorem round_up_sizeof : vb2_wb_round_up SIZEOF_VB2_SHARED_DATA = 32 := by decide

/-- C5: vb2api_reinit returns exactly the result of vb2api_relocate on
the same buffer as both source and destination, with the size read from
the buffer header. -/
theorem C5_reinit_eq_relocate (wb : Workbuf) :
    vb2api_reinit wb = vb2api_relocate wb wb wb.sd.workbuf_size := rfl

/-- C6: get_boot_mode returns manual recovery whenever the recovery
flag is set, developer when only the developer flag is set, normal when
neither is set, and depends only on the flags field. -/
theorem C6_boot_mode_cases (ctx : vb2_context) :
    (ctx.flags &&& VB2_CONTEXT_RECOVERY_MODE ≠ 0 →
      get_boot_mode ctx = .VB2_BOOT_MODE_MANUAL_RECOVERY) ∧
    (ctx.flags &&& VB2_CONTEXT_RECOVERY_MODE = 0 →
      ctx.flags &&& VB2_CONTEXT_DEVELOPER_MODE ≠ 0 →
      get_boot_mode ctx = .VB2_BOOT_MODE_DEVELOPER) ∧
    (ctx.flags &&& VB2_CONTEXT_RECOVERY_MODE = 0 →
      ctx.flags &&& VB2_CONTEXT_DEVELOPER_MODE = 0 →
      get_boot_mode ctx = .VB2_BOOT_MODE_NORMAL) ∧
    (∀ c2 : vb2_context, ctx.flags = c2.flags →
      get_boot_mode ctx = get_boot_mode c2) := by
  refine ⟨fun h => by simp [get_boot_mode, h],
    fun h h2 => by simp [get_boot_mode, h, h2],
    fun h h2 => by simp [get_boot_mode, h, h2],
    fun c2 hf => by simp [get_boot_mode, hf]⟩

/-- C6 witness: with both flags set, recovery wins. -/
theorem C6_boot_mode_cases_witness :
    ctxBoth.flags &&& VB2_CONTEXT_RECOVERY_MODE ≠ 0 ∧
    get_boot_mode ctxBoth = .VB2_BOOT_MODE_MANUAL_RECOVERY :=
  ⟨by decide, (C6_boot_mode_cases ctxBoth).1 (by decide)⟩

/-- C8: the software-only defaults for digest_init, rsa_verify_digest
and modexp return the unsupported sentinel; the defaults for
digest_extend and digest_finalize return hard errors different from
the sentinel and from success; and the sentinel is distinct from every
true failure code of the model and from success. -/
theorem C8_hwcrypto_defaults :
    (∀ a b : Nat, vb2ex_hwcrypto_digest_init a b =
      .VB2_ERROR_EX_HWCRYPTO_UNSUPPORTED) ∧
    (∀ (k : vb2_public_key) (s d : List Nat),
      vb2ex_hwcrypto_rsa_verify_digest k s d =
        .VB2_ERROR_EX_HWCRYPTO_UNSUPPORTED) ∧
    (∀ (k : vb2_public_key) (io w : List Nat) (ws : Nat) (e : Int),
      vb2ex_hwcrypto_modexp k io w ws e =
        .VB2_ERROR_EX_HWCRYPTO_UNSUPPORTED) ∧
    (∀ (b : List Nat) (s : Nat), vb2ex_hwcrypto_digest_extend b s =
      .VB2_ERROR_SHA_EXTEND_ALGORITHM) ∧
    (∀ (d : List Nat) (s : Nat), vb2ex_hwcrypto_digest_finalize d s =
      .VB2_ERROR_SHA_FINALIZE_ALGORITHM) ∧
    vb2_error_t.VB2_ERROR_SHA_EXTEND_ALGORITHM ≠
      .VB2_ERROR_EX_HWCRYPTO_UNSUPPORTED ∧
    vb2_error_t.VB2_ERROR_SHA_FINALIZE_ALGORITHM ≠
      .VB2_ERROR_EX_HWCRYPTO_UNSUPPORTED ∧
    vb2_error_t.VB2_ERROR_SHA_EXTEND_ALGORITHM ≠ .VB2_SUCCESS ∧
    vb2_error_t.VB2_ERROR_SHA_FINALIZE_ALGORITHM ≠ .VB2_SUCCESS ∧
    vb2_error_t.VB2_ERROR_EX_HWCRYPTO_UNSUPPORTED ≠ .VB2_SUCCESS ∧
    vb2_error_t.VB2_ERROR_EX_HWCRYPTO_UNSUPPORTED ≠
      .VB2_ERROR_WORKBUF_ALIGN ∧
    vb2_error_t.VB2_ERROR_EX_HWCRYPTO_UNSUPPORTED ≠
      .VB2_ERROR_WORKBUF_SMALL ∧
    vb2_error_t.VB2_ERROR_EX_HWCRYPTO_UNSUPPORTED ≠
      .VB2_ERROR_SHARED_DATA_MAGIC ∧
    vb2_error_t.VB2_ERROR_EX_HWCRYPTO_UNSUPPORTED ≠
      .VB2_ERROR_SHARED_DATA_VERSION ∧
    vb2_error_t.VB2_ERROR_EX_HWCRYPTO_UNSUPPORTED ≠
      .VB2_ERROR_WORKBUF_INVALID :=
  ⟨fun _ _ => rfl, fun _ _ _ => rfl, fun _ _ _ _ _ => rfl,
    fun _ _ => rfl, fun _ _ => rfl, by decide, by decide, by decide,
    by decide, by decide, by decide, by decide, by decide, by decide,
    by decide⟩

/-- C9 (amended): vb2_set_workbuf_used stores the rounded-up value into
workbuf_used unconditionally and changes nothing else. -/
theorem C9_set_workbuf_used_sets (wb : Workbuf) (u : Nat) :
    (vb2_set_workbuf_used wb u).sd.workbuf_used = vb2_wb_round_up u ∧
    (vb2_set_workbuf_used wb u).addr = wb.addr ∧
    (vb2_set_workbuf_used wb u).tail = wb.tail ∧
    (vb2_set_workbuf_used wb u).sd.magic = wb.sd.magic ∧
    (vb2_set_workbuf_used wb u).sd.struct_version_major =
      wb.sd.struct_version_major ∧
    (vb2_set_workbuf_used wb u).sd.struct_version_minor =
      wb.sd.struct_version_minor ∧
    (vb2_set_workbuf_used wb u).sd.workbuf_size = wb.sd.workbuf_size ∧
    (vb2_set_workbuf_used wb u).sd.ctx = wb.sd.ctx :=
  ⟨rfl, rfl, rfl, rfl, rfl, rfl, rfl, rfl⟩

/-- C9 counterexample: a request that would decrease workbuf_used from
64 to 16 is applied silently; no guard or assert catches it. -/
theorem C9_counterexample :
    wbUsed64.sd.workbuf_used = 64 ∧
    (vb2_set_workbuf_used wbUsed64 16).sd.workbuf_used = 16 := by decide

/-- C7: vb2api_init returns the alignment error on a misaligned buffer
and the size error on an undersized buffer, and in both cases leaves the
buffer exactly as it was (nothing is written, in particular nothing at
or beyond offset s). -/
theorem C7_init_errors (wb : Workbuf) (s : Nat) :
    (vb2_aligned wb.addr VB2_WORKBUF_ALIGN = false →
      vb2api_init wb s =
        { status := .VB2_ERROR_WORKBUF_ALIGN, buf := wb, ctxptr := none }) ∧
    (vb2_aligned wb.addr VB2_WORKBUF_ALIGN = true →
      s < vb2_wb_round_up SIZEOF_VB2_SHARED_DATA →
      vb2api_init wb s =
        { status := .VB2_ERROR_WORKBUF_SMALL, buf := wb, ctxptr := none }) := by
  constructor
  · intro h; simp [vb2api_init, h]
  · intro h hs; simp [vb2api_init, h, hs]

/-- C7 witness: a misaligned buffer fails with the alignment error and
is unchanged. -/
theorem C7_init_errors_witness :
    vb2_aligned wbMis.addr VB2_WORKBUF_ALIGN = false ∧
    vb2api_init wbMis 100 =
      { status := .VB2_ERROR_WORKBUF_ALIGN, buf := wbMis, ctxptr := none } :=
  ⟨by decide, (C7_init_errors wbMis 100).1 (by decide)⟩

/-- C10: vb2api_init stores NULL through ctxptr on every failure path
and a pointer to the embedded context on success. -/
theorem C10_ctxptr_contract (wb : Workbuf) (s : Nat) :
    ((vb2api_init wb s).status ≠ .VB2_SUCCESS →
      (vb2api_init wb s).ctxptr = none) ∧
    ((vb2api_init wb s).status = .VB2_SUCCESS →
      (vb2api_init wb s).ctxptr = some (wb.addr + VB2_CONTEXT_OFFSET)) := by
  unfold vb2api_init
  split_ifs with h1 h2 <;> simp

/-- C10 witness: a successful call returns the embedded context
pointer. -/
theorem C10_ctxptr_contract_witness :
    (vb2api_init wbZero 64).status = .VB2_SUCCESS ∧
    (vb2api_init wbZero 64).ctxptr = some (wbZero.addr + VB2_CONTEXT_OFFSET) :=
  ⟨by decide, (C10_ctxptr_contract wbZero 64).2 (by decide)⟩

/-- C1 counterexample: on a 33-byte buffer whose stale byte at offset
SIZEOF_VB2_SHARED_DATA is 7, vb2api_init succeeds but that in-buffer
byte is still 7 afterwards: the call does not zero the entire buffer,
only the shared-data region. -/
theorem C1_counterexample :
    (vb2api_init wbDirty 33).status = .VB2_SUCCESS ∧
    SIZEOF_VB2_SHARED_DATA < 33 ∧
    (vb2api_init wbDirty 33).buf.tail = [7] ∧ (7 : Nat) ≠ 0 := by decide

/-- C1 (amended): on an aligned buffer of sufficient size, vb2api_init
succeeds, zeroes the shared-data region (header and embedded context)
while leaving the rest of the buffer untouched, stamps magic, the
current version pair, the total size and the rounded-up used count,
returns the embedded context pointer, and the scratch view afterwards
has remaining capacity exactly s minus the rounded-up header size. -/
theorem C1_init_success (wb : Workbuf) (s : Nat)
    (hal : vb2_aligned wb.addr VB2_WORKBUF_ALIGN = true)
    (hs : vb2_wb_round_up SIZEOF_VB2_SHARED_DATA ≤ s)
    (hs32 : s < 2 ^ 32) :
    vb2api_init wb s =
      { status := .VB2_SUCCESS
      , buf :=
          { addr := wb.addr
          , sd :=
              { magic := VB2_SHARED_DATA_MAGIC
              , struct_version_major := VB2_SHARED_DATA_VERSION_MAJOR
              , struct_version_minor := VB2_SHARED_DATA_VERSION_MINOR
              , workbuf_size := s
              , workbuf_used := vb2_wb_round_up SIZEOF_VB2_SHARED_DATA
              , ctx := { flags := 0, boot_mode := 0 } }
          , tail := wb.tail }
      , ctxptr := some (wb.addr + VB2_CONTEXT_OFFSET) } ∧
    (vb2_workbuf_from_ctx (vb2api_init wb s).buf).size =
      s - vb2_wb_round_up SIZEOF_VB2_SHARED_DATA := by
  have hmain : vb2api_init wb s =
      { status := .VB2_SUCCESS
      , buf :=
          { addr := wb.addr
          , sd :=
              { magic := VB2_SHARED_DATA_MAGIC
              , struct_version_major := VB2_SHARED_DATA_VERSION_MAJOR
              , struct_version_minor := VB2_SHARED_DATA_VERSION_MINOR
              , workbuf_size := s
              , workbuf_used := vb2_wb_round_up SIZEOF_VB2_SHARED_DATA
              , ctx := { flags := 0, boot_mode := 0 } }
          , tail := wb.tail }
      , ctxptr := some (wb.addr + VB2_CONTEXT_OFFSET) } := by
    simp [vb2api_init, hal, Nat.not_lt.mpr hs]
  refine ⟨hmain, ?_⟩
  rw [hmain]
  simp [vb2_workbuf_from_ctx, usub32, round_up_sizeof]
  rw [round_up_sizeof] at hs
  have hs32n : s < 4294967296 := by
    have hp : (2 : Nat) ^ 32 = 4294967296 := by norm_num
    rw [hp] at hs32
    exact hs32
  omega

/-- C1 witness: scenario A, a buffer of size 32 + 4096. -/
theorem C1_init_success_witness :
    vb2api_init wbZero 4128 =
      { status := .VB2_SUCCESS
      , buf :=
          { addr := wbZero.addr
          , sd :=
              { magic := VB2_SHARED_DATA_MAGIC
              , struct_version_major := VB2_SHARED_DATA_VERSION_MAJOR
              , struct_version_minor := VB2_SHARED_DATA_VERSION_MINOR
              , workbuf_size := 4128
              , workbuf_used := vb2_wb_round_up SIZEOF_VB2_SHARED_DATA
              , ctx := { flags := 0, boot_mode := 0 } }
          , tail := wbZero.tail }
      , ctxptr := some (wbZero.addr + VB2_CONTEXT_OFFSET) } ∧
    (vb2_workbuf_from_ctx (vb2api_init wbZero 4128).buf).size =
      4128 - vb2_wb_round_up SIZEOF_VB2_SHARED_DATA :=
  C1_init_success wbZero 4128 (by decide) (by decide) (by decide)

/-- The continuation after the version checks never yields the version
error. -/
theorem relocate_cont_ne_version (nw cw : Workbuf) (s : Nat) (ub : Bool) :
    (vb2api_relocate_cont nw cw s ub).status ≠
      .VB2_ERROR_SHARED_DATA_VERSION := by
  by_cases hA : cw.sd.workbuf_used < vb2_wb_round_up SIZEOF_VB2_SHARED_DATA
  · simp [vb2api_relocate_cont, hA]
  · by_cases hB : cw.sd.workbuf_size < cw.sd.workbuf_used
    · simp [vb2api_relocate_cont, hA, hB]
    · by_cases hC : s < cw.sd.workbuf_used
      · simp [vb2api_relocate_cont, hA, hB, hC]
      · by_cases hD : cw.addr ≠ nw.addr <;> by_cases hE : ub = true <;>
          simp [vb2api_relocate_cont, hA, hB, hC, hD, hE]

/-- When the destination is aligned, the magic matches and the version
pair is accepted, vb2api_relocate proceeds to the post-version-check
continuation, with the migration flag set exactly when the current
minor version is 0. -/
theorem relocate_reaches_cont (nw cw : Workbuf) (s : Nat)
    (hal : vb2_aligned nw.addr VB2_WORKBUF_ALIGN = true)
    (hm : cw.sd.magic = VB2_SHARED_DATA_MAGIC)
    (hacc : versionAccepted cw.sd) :
    vb2api_relocate nw cw s =
      vb2api_relocate_cont nw cw s (cw.sd.struct_version_minor == 0) := by
  obtain ⟨hmaj, hmin⟩ := hacc
  by_cases h0 : cw.sd.struct_version_minor = 0
  · simp [vb2api_relocate, hal, hm, hmaj, h0, VB2_SHARED_DATA_VERSION_MINOR]
  · have h1 : ¬ cw.sd.struct_version_minor < VB2_SHARED_DATA_VERSION_MINOR := by
      rcases hmin with h | h
      · omega
      · exact absurd h.1 h0
    have hb : (cw.sd.struct_version_minor == 0) = false := by simp [h0]
    simp [vb2api_relocate, hal, hm, hmaj, h0, h1, hb]

/-- When the destination is aligned and the magic matches but the
version pair is not accepted, vb2api_relocate fails with the version
error and touches nothing. -/
theorem relocate_version_err (nw cw : Workbuf) (s : Nat)
    (hal : vb2_aligned nw.addr VB2_WORKBUF_ALIGN = true)
    (hm : cw.sd.magic = VB2_SHARED_DATA_MAGIC)
    (hnacc : ¬ versionAccepted cw.sd) :
    vb2api_relocate nw cw s =
      { status := .VB2_ERROR_SHARED_DATA_VERSION, buf := nw, ctxptr := none } := by
  have hmaj : cw.sd.struct_version_major ≠ VB2_SHARED_DATA_VERSION_MAJOR := by
    intro he
    exact hnacc ⟨he, by unfold VB2_SHARED_DATA_VERSION_MINOR; omega⟩
  simp [vb2api_relocate, hal, hm, hmaj]

/-- C2: under an aligned destination and a matching magic, relocation
fails with the version error exactly when the version pair is not
accepted (major equal, and minor at least the expected minor or the
0 to 1 migration pair); in particular a major version one greater than
expected always fails with the version error, whatever the minor. -/
theorem C2_version_gate (nw cw : Workbuf) (s : Nat)
    (hal : vb2_aligned nw.addr VB2_WORKBUF_ALIGN = true)
    (hm : cw.sd.magic = VB2_SHARED_DATA_MAGIC) :
    ((vb2api_relocate nw cw s).status = .VB2_ERROR_SHARED_DATA_VERSION ↔
      ¬ versionAccepted cw.sd) ∧
    (cw.sd.struct_version_major = VB2_SHARED_DATA_VERSION_MAJOR + 1 →
      (vb2api_relocate nw cw s).status = .VB2_ERROR_SHARED_DATA_VERSION) := by
  have hiff : (vb2api_relocate nw cw s).status =
      .VB2_ERROR_SHARED_DATA_VERSION ↔ ¬ versionAccepted cw.sd := by
    constructor
    · intro h
      by_contra hacc
      rw [relocate_reaches_cont nw cw s hal hm hacc] at h
      exact relocate_cont_ne_version nw cw s _ h
    · intro hnacc
      rw [relocate_version_err nw cw s hal hm hnacc]
  refine ⟨hiff, fun hmaj => hiff.mpr ?_⟩
  intro hacc
  have hx := hacc.1
  omega

/-- C2 witness: scenario C, a header with major version one greater
than expected (and an arbitrary nonzero minor) is rejected with the
version error. -/
theorem C2_version_gate_witness :
    (vb2api_relocate wbZero cwMaj4 64).status =
      .VB2_ERROR_SHARED_DATA_VERSION :=
  (C2_version_gate wbZero cwMaj4 64 (by decide) (by decide)).2 (by decide)

/-- C4: when every validation check passes, relocation succeeds and
returns the embedded context pointer of the destination; on a true move
the destination receives the source header and exactly the used portion
of the source tail (its remaining bytes keep their previous values);
the recorded size becomes the new size; exactly when the current minor
version is 0 the minor version is stamped to 1 and the boot-mode field
is recomputed from the flags, and no other header field changes. -/
theorem C4_relocate_success (nw cw : Workbuf) (s : Nat)
    (hal : vb2_aligned nw.addr VB2_WORKBUF_ALIGN = true)
    (hm : cw.sd.magic = VB2_SHARED_DATA_MAGIC)
    (hacc : versionAccepted cw.sd)
    (h1 : vb2_wb_round_up SIZEOF_VB2_SHARED_DATA ≤ cw.sd.workbuf_used)
    (h2 : cw.sd.workbuf_used ≤ cw.sd.workbuf_size)
    (h3 : cw.sd.workbuf_used ≤ s) :
    (vb2api_relocate nw cw s).status = .VB2_SUCCESS ∧
    (vb2api_relocate nw cw s).ctxptr = some (nw.addr + VB2_CONTEXT_OFFSET) ∧
    (cw.addr ≠ nw.addr →
      (vb2api_relocate nw cw s).buf.addr = nw.addr ∧
      (vb2api_relocate nw cw s).buf.tail =
        cw.tail.take (cw.sd.workbuf_used - SIZEOF_VB2_SHARED_DATA)
          ++ nw.tail.drop (cw.sd.workbuf_used - SIZEOF_VB2_SHARED_DATA) ∧
      (cw.sd.struct_version_minor ≠ 0 →
        (vb2api_relocate nw cw s).buf.sd = { cw.sd with workbuf_size := s }) ∧
      (cw.sd.struct_version_minor = 0 →
        (vb2api_relocate nw cw s).buf.sd =
          { cw.sd with
              workbuf_size := s
            , struct_version_minor := 1
            , ctx := { cw.sd.ctx with
                  boot_mode := (get_boot_mode cw.sd.ctx).toNat } })) ∧
    (cw = nw →
      (vb2api_relocate nw cw s).buf.addr = nw.addr ∧
      (vb2api_relocate nw cw s).buf.tail = cw.tail ∧
      (cw.sd.struct_version_minor ≠ 0 →
        (vb2api_relocate nw cw s).buf.sd = { cw.sd with workbuf_size := s }) ∧
      (cw.sd.struct_version_minor = 0 →
        (vb2api_relocate nw cw s).buf.sd =
          { cw.sd with
              workbuf_size := s
            , struct_version_minor := 1
            , ctx := { cw.sd.ctx with
                  boot_mode := (get_boot_mode cw.sd.ctx).toNat } })) := by
  rw [relocate_reaches_cont nw cw s hal hm hacc]
  have h1' : ¬ cw.sd.workbuf_used < vb2_wb_round_up SIZEOF_VB2_SHARED_DATA :=
    Nat.not_lt.mpr h1
  have h2' : ¬ cw.sd.workbuf_size < cw.sd.workbuf_used := Nat.not_lt.mpr h2
  have h3' : ¬ s < cw.sd.workbuf_used := Nat.not_lt.mpr h3
  by_cases h0 : cw.sd.struct_version_minor = 0
  · refine ⟨?_, ?_, ?_, ?_⟩
    · simp [vb2api_relocate_cont, h1', h2', h3', h0]
    · simp [vb2api_relocate_cont, h1', h2', h3', h0]
    · intro haddr
      refine ⟨?_, ?_, fun hc => absurd h0 hc, fun _ => ?_⟩
      · simp [vb2api_relocate_cont, h1', h2', h3', h0, haddr]
      · simp [vb2api_relocate_cont, h1', h2', h3', h0, haddr]
      · simp [vb2api_relocate_cont, h1', h2', h3', h0, haddr]
    · intro hceq
      subst hceq
      refine ⟨?_, ?_, fun hc => absurd h0 hc, fun _ => ?_⟩
      · simp [vb2api_relocate_cont, h1', h2', h3', h0]
      · simp [vb2api_relocate_cont, h1', h2', h3', h0]
      · simp [vb2api_relocate_cont, h1', h2', h3', h0]
  · refine ⟨?_, ?_, ?_, ?_⟩
    · simp [vb2api_relocate_cont, h1', h2', h3', h0]
    · simp [vb2api_relocate_cont, h1', h2', h3', h0]
    · intro haddr
      refine ⟨?_, ?_, fun _ => ?_, fun hc => absurd hc h0⟩
      · simp [vb2api_relocate_cont, h1', h2', h3', h0, haddr]
      · simp [vb2api_relocate_cont, h1', h2', h3', h0, haddr]
      · simp [vb2api_relocate_cont, h1', h2', h3', h0, haddr]
    · intro hceq
      subst hceq
      refine ⟨?_, ?_, fun _ => ?_, fun hc => absurd hc h0⟩
      · simp [vb2api_relocate_cont, h1', h2', h3', h0]
      · simp [vb2api_relocate_cont, h1', h2', h3', h0]
      · simp [vb2api_relocate_cont, h1', h2', h3', h0]

/-- C4 witness: a true move with 0 to 1 migration: the used portion of
the source is copied, the remaining destination bytes keep their stale
values, and the migrated header stamps minor version 1 and the
recomputed boot mode. -/
theorem C4_relocate_success_witness :
    (vb2api_relocate nwDest cwMig 64).status = .VB2_SUCCESS ∧
    (vb2api_relocate nwDest cwMig 64).buf.tail =
      cwMig.tail.take (cwMig.sd.workbuf_used - SIZEOF_VB2_SHARED_DATA)
        ++ nwDest.tail.drop (cwMig.sd.workbuf_used - SIZEOF_VB2_SHARED_DATA) ∧
    (vb2api_relocate nwDest cwMig 64).buf.sd =
      { cwMig.sd with
          workbuf_size := 64
        , struct_version_minor := 1
        , ctx := { cwMig.sd.ctx with
              boot_mode := (get_boot_mode cwMig.sd.ctx).toNat } } := by
  have T := C4_relocate_success nwDest cwMig 64 (by decide) (by decide)
    (by decide) (by decide) (by decide) (by decide)
  have hmv := T.2.2.1 (by decide)
  exact ⟨T.1, hmv.2.1, hmv.2.2.2 (by decide)⟩

/-- The continuation fails with the invalid-bookkeeping error, touching
nothing, when the used count is below the rounded-up header size. -/
theorem relocate_cont_used_low (nw cw : Workbuf) (s : Nat) (ub : Bool)
    (h : cw.sd.workbuf_used < vb2_wb_round_up SIZEOF_VB2_SHARED_DATA) :
    vb2api_relocate_cont nw cw s ub =
      { status := .VB2_ERROR_WORKBUF_INVALID, buf := nw, ctxptr := none } := by
  simp [vb2api_relocate_cont, h]

/-- The continuation fails with the invalid-bookkeeping error, touching
nothing, when the recorded size is below the used count. -/
theorem relocate_cont_size_low (nw cw : Workbuf) (s : Nat) (ub : Bool)
    (h1 : ¬ cw.sd.workbuf_used < vb2_wb_round_up SIZEOF_VB2_SHARED_DATA)
    (h2 : cw.sd.workbuf_size < cw.sd.workbuf_used) :
    vb2api_relocate_cont nw cw s ub =
      { status := .VB2_ERROR_WORKBUF_INVALID, buf := nw, ctxptr := none } := by
  simp [vb2api_relocate_cont, h1, h2]

/-- The continuation fails with the too-small error, touching nothing,
when the used count exceeds the new size. -/
theorem relocate_cont_new_small (nw cw : Workbuf) (s : Nat) (ub : Bool)
    (h1 : ¬ cw.sd.workbuf_used < vb2_wb_round_up SIZEOF_VB2_SHARED_DATA)
    (h2 : ¬ cw.sd.workbuf_size < cw.sd.workbuf_used)
    (h3 : s < cw.sd.workbuf_used) :
    vb2api_relocate_cont nw cw s ub =
      { status := .VB2_ERROR_WORKBUF_SMALL, buf := nw, ctxptr := none } := by
  simp [vb2api_relocate_cont, h1, h2, h3]

/-- C3: the six relocation checks fire in order (destination alignment,
magic, version, used at least the rounded header size, used at most the
recorded size, used at most the new size); each failing check returns
its named error code with the destination buffer unchanged and nothing
stored through ctxptr; the codes for the five distinct failure kinds
are pairwise distinct (the two bookkeeping checks share the
invalid-bookkeeping code). -/
theorem C3_validation_order (nw cw : Workbuf) (s : Nat) :
    (vb2_aligned nw.addr VB2_WORKBUF_ALIGN = false →
      vb2api_relocate nw cw s =
        { status := .VB2_ERROR_WORKBUF_ALIGN, buf := nw, ctxptr := none }) ∧
    (vb2_aligned nw.addr VB2_WORKBUF_ALIGN = true →
      cw.sd.magic ≠ VB2_SHARED_DATA_MAGIC →
      vb2api_relocate nw cw s =
        { status := .VB2_ERROR_SHARED_DATA_MAGIC, buf := nw, ctxptr := none }) ∧
    (vb2_aligned nw.addr VB2_WORKBUF_ALIGN = true →
      cw.sd.magic = VB2_SHARED_DATA_MAGIC →
      ¬ versionAccepted cw.sd →
      vb2api_relocate nw cw s =
        { status := .VB2_ERROR_SHARED_DATA_VERSION, buf := nw, ctxptr := none }) ∧
    (vb2_aligned nw.addr VB2_WORKBUF_ALIGN = true →
      cw.sd.magic = VB2_SHARED_DATA_MAGIC →
      versionAccepted cw.sd →
      cw.sd.workbuf_used < vb2_wb_round_up SIZEOF_VB2_SHARED_DATA →
      vb2api_relocate nw cw s =
        { status := .VB2_ERROR_WORKBUF_INVALID, buf := nw, ctxptr := none }) ∧
    (vb2_aligned nw.addr VB2_WORKBUF_ALIGN = true →
      cw.sd.magic = VB2_SHARED_DATA_MAGIC →
      versionAccepted cw.sd →
      vb2_wb_round_up SIZEOF_VB2_SHARED_DATA ≤ cw.sd.workbuf_used →
      cw.sd.workbuf_size < cw.sd.workbuf_used →
      vb2api_relocate nw cw s =
        { status := .VB2_ERROR_WORKBUF_INVALID, buf := nw, ctxptr := none }) ∧
    (vb2_aligned nw.addr VB2_WORKBUF_ALIGN = true →
      cw.sd.magic = VB2_SHARED_DATA_MAGIC →
      versionAccepted cw.sd →
      vb2_wb_round_up SIZEOF_VB2_SHARED_DATA ≤ cw.sd.workbuf_used →
      cw.sd.workbuf_used ≤ cw.sd.workbuf_size →
      s < cw.sd.workbuf_used →
      vb2api_relocate nw cw s =
        { status := .VB2_ERROR_WORKBUF_SMALL, buf := nw, ctxptr := none }) ∧
    (vb2_error_t.VB2_ERROR_WORKBUF_ALIGN ≠ .VB2_ERROR_SHARED_DATA_MAGIC ∧
      vb2_error_t.VB2_ERROR_WORKBUF_ALIGN ≠ .VB2_ERROR_SHARED_DATA_VERSION ∧
      vb2_error_t.VB2_ERROR_WORKBUF_ALIGN ≠ .VB2_ERROR_WORKBUF_INVALID ∧
      vb2_error_t.VB2_ERROR_WORKBUF_ALIGN ≠ .VB2_ERROR_WORKBUF_SMALL ∧
      vb2_error_t.VB2_ERROR_SHARED_DATA_MAGIC ≠ .VB2_ERROR_SHARED_DATA_VERSION ∧
      vb2_error_t.VB2_ERROR_SHARED_DATA_MAGIC ≠ .VB2_ERROR_WORKBUF_INVALID ∧
      vb2_error_t.VB2_ERROR_SHARED_DATA_MAGIC ≠ .VB2_ERROR_WORKBUF_SMALL ∧
      vb2_error_t.VB2_ERROR_SHARED_DATA_VERSION ≠ .VB2_ERROR_WORKBUF_INVALID ∧
      vb2_error_t.VB2_ERROR_SHARED_DATA_VERSION ≠ .VB2_ERROR_WORKBUF_SMALL ∧
      vb2_error_t.VB2_ERROR_WORKBUF_INVALID ≠ .VB2_ERROR_WORKBUF_SMALL) := by
  refine ⟨?_, ?_, ?_, ?_, ?_, ?_, by decide⟩
  · intro h
    simp [vb2api_relocate, h]
  · intro hal hm
    simp [vb2api_relocate, hal, hm]
  · intro hal hm hnacc
    exact relocate_version_err nw cw s hal hm hnacc
  · intro hal hm hacc h4
    rw [relocate_reaches_cont nw cw s hal hm hacc]
    exact relocate_cont_used_low nw cw s _ h4
  · intro hal hm hacc h4 h5
    rw [relocate_reaches_cont nw cw s hal hm hacc]
    exact relocate_cont_size_low nw cw s _ (Nat.not_lt.mpr h4) h5
  · intro hal hm hacc h4 h5 h6
    rw [relocate_reaches_cont nw cw s hal hm hacc]
    exact relocate_cont_new_small nw cw s _ (Nat.not_lt.mpr h4)
      (Nat.not_lt.mpr h5) h6

/-- C3 witness: property P4, a corrupted magic fails with the
magic-mismatch error and the destination buffer is untouched. -/
theorem C3_validation_order_witness :
    vb2api_relocate nwDest cwBadMagic 64 =
      { status := .VB2_ERROR_SHARED_DATA_MAGIC, buf := nwDest, ctxptr := none } :=
  (C3_validation_order nwDest cwBadMagic 64).2.1 (by decide) (by decide)
